import Mathlib

/-!
Shallow embedding of the invoice-management front end (src/script.js).

JavaScript numbers are modelled as rationals (`Rat`), strings as `String`,
absent / falsy-undefined values as `Option`.  Asynchronous network calls are
modelled by passing the result of the transport (or an error) as an explicit
argument, and each operation returns the new state together with an explicit
record of its observable effects (notifications shown, requests issued).
All definitions below are translated from src/script.js; line numbers in the
doc comments refer to that file.
-/

namespace InvoiceApp

/-- JS `str.toLowerCase()`, computed characterwise so that the kernel can
evaluate it on literals. -/
def jsToLower (s : String) : String :=
  String.mk (s.data.map Char.toLower)

/-- JS `str.trim()`: strips leading and trailing whitespace, computed on the
character list so that the kernel can evaluate it on literals. -/
def jsTrim (s : String) : String :=
  String.mk (((s.data.dropWhile Char.isWhitespace).reverse.dropWhile
    Char.isWhitespace).reverse)

/-- Whether the first character list is a prefix of the second. -/
def charsStartsWith : List Char → List Char → Bool
  | [], _ => true
  | _ :: _, [] => false
  | a :: as, b :: bs => a == b && charsStartsWith as bs

/-- Whether the second character list occurs contiguously in the first. -/
def charsContains : List Char → List Char → Bool
  | [], pat => pat.isEmpty
  | b :: bs, pat => charsStartsWith pat (b :: bs) || charsContains bs pat

/-- JS `str.includes(pat)`: substring containment, as a decidable Bool. -/
def containsSub (s pat : String) : Bool :=
  charsContains s.data pat.data

deriving instance DecidableEq for Except

/-- JS `a || b` on a possibly-absent string field: an absent field or an
empty string falls through to the fallback. -/
def jsOr (o : Option String) (fallback : String) : String :=
  match o with
  | some s => if s = "" then fallback else s
  | none => fallback

/-- The fields of a decoded JSON error body that ApiService.request inspects
(script.js line 36: `data.message || data.error || ...`). -/
structure JsonBody where
  message : Option String
  error : Option String
  deriving DecidableEq, Repr

/-- The outcome of the `fetch` call inside ApiService.request:
either the transport itself fails (rejected promise, carrying the JS error
fields `name` and `message`), or a response arrives with an HTTP status, a
content type that is or is not JSON, and a body. -/
inductive FetchResult where
  /-- `fetch` rejected: a transport-level failure with the error fields
  `name` (e.g. "TypeError") and `message`. -/
  | transportError (name msg : String)
  /-- A response with JSON content type; `ok` is `response.ok`,
  `status` is the HTTP status, `body` the decoded JSON object. -/
  | jsonResponse (ok : Bool) (status : Nat) (body : JsonBody)
  /-- A response whose content type is not JSON; `text` is the raw body
  and `statusText` the HTTP status text. -/
  | textResponse (ok : Bool) (status : Nat) (statusText : String) (text : String)
  deriving DecidableEq, Repr

/-- The body of the `try` block of ApiService.request (script.js lines 22-39):
either the decoded data, or the thrown JS error as a (name, message) pair.
Lines 30-33: a non-JSON body throws the text (or a generic HTTP message when
the text is empty).  Lines 35-37: a non-ok JSON response throws
`data.message || data.error || "Request failed with status N"`. -/
def requestTry : FetchResult → Except (String × String) JsonBody
  | .transportError name msg => .error (name, msg)
  | .textResponse _ status statusText text =>
      .error ("Error",
        if text = "" then "HTTP " ++ Nat.repr status ++ ": " ++ statusText else text)
  | .jsonResponse ok status body =>
      if ok then .ok body
      else .error ("Error",
        jsOr body.message (jsOr body.error
          ("Request failed with status " ++ Nat.repr status)))

/-- ApiService.request (script.js lines 8-52): runs the try block, then the
catch block (lines 40-51) rewrites the thrown error: if the error name is
"TypeError" or its lowercased message contains "fetch" or "failed", it becomes
the "Cannot connect to server..." failure; otherwise the original message is
re-thrown (defaulting when empty). -/
def request (r : FetchResult) : Except String JsonBody :=
  match requestTry r with
  | .ok data => .ok data
  | .error (name, msg) =>
      let m := jsToLower msg
      if name = "TypeError" || containsSub m "fetch" || containsSub m "failed" then
        .error "Cannot connect to server. Make sure the backend is running on http://localhost:5500"
      else
        .error (if msg = "" then "Network error or server unavailable" else msg)

/-- The write-side status map of InvoiceManager.addInvoice (script.js lines
680-687) and InvoiceManager.updateInvoice (lines 715-722), which contain the
same literal map, restricted to its OWN-property behaviour: exact on the five
vocabulary keys and on undefined-lookup keys (where the fallback yields
"unpaid").  This simplified form is accurate only away from the inherited
Object.prototype member names; the full JS property lookup, prototype chain
included, is statusMapWriteJs below. -/
def statusMapWrite (s : String) : String :=
  if s = "paid" then "paid"
  else if s = "unpaid" then "unpaid"
  else if s = "overdue" then "overdue"
  else if s = "draft" then "unpaid"
  else if s = "sent" then "unpaid"
  else "unpaid"

/-- The read-side status map of InvoiceManager.loadInvoices (script.js lines
820-824, applied at line 840 with the same fallback to "unpaid"), restricted
to its OWN-property behaviour as for statusMapWrite; the full JS property
lookup, prototype chain included, is statusMapReadJs below. -/
def statusMapRead (s : String) : String :=
  if s = "Paid" then "paid"
  else if s = "Unpaid" then "unpaid"
  else if s = "Overdue" then "overdue"
  else "unpaid"

/-- The property names every plain JS object literal inherits from
Object.prototype: looking any of these up on the status map hits the
inherited member (a function, or Object.prototype itself), not undefined. -/
def objectProtoMembers : List String :=
  ["constructor", "hasOwnProperty", "isPrototypeOf", "propertyIsEnumerable",
   "toLocaleString", "toString", "valueOf", "__defineGetter__",
   "__defineSetter__", "__lookupGetter__", "__lookupSetter__", "__proto__"]

/-- The JS value of the whole expression statusMap[s] with its fallback to
"unpaid": either a string, or a truthy inherited Object.prototype member
(tagged by its name) that the fallback does not replace. -/
inductive JsStatusValue where
  /-- A string result: an own-property value or the "unpaid" fallback. -/
  | str (value : String)
  /-- The inherited Object.prototype member named `key` — a function or
  object, hence truthy, so the fallback after the lookup does not fire. -/
  | obj (key : String)
  deriving DecidableEq, Repr

/-- The write-side status lookup of script.js lines 687/722 as JS evaluates
it: an own-property key of the literal map yields its string; a key naming an
inherited Object.prototype member yields that truthy member, which the
fallback leaves in place; any other key yields undefined, which the fallback
turns into "unpaid". -/
def statusMapWriteJs (s : String) : JsStatusValue :=
  if s = "paid" then .str "paid"
  else if s = "unpaid" then .str "unpaid"
  else if s = "overdue" then .str "overdue"
  else if s = "draft" then .str "unpaid"
  else if s = "sent" then .str "unpaid"
  else if s ∈ objectProtoMembers then .obj s
  else .str "unpaid"

/-- The read-side status lookup of script.js line 840 as JS evaluates it,
with the same prototype-chain behaviour as statusMapWriteJs. -/
def statusMapReadJs (s : String) : JsStatusValue :=
  if s = "Paid" then .str "paid"
  else if s = "Unpaid" then .str "unpaid"
  else if s = "Overdue" then .str "overdue"
  else if s ∈ objectProtoMembers then .obj s
  else .str "unpaid"

/-- One `.item-row` of the invoice form, with its three inputs and the
read-only `.item-total` field.  `quantity`, `price` and `total` are the
values of `parseFloat(...) || 0` on the raw inputs (an unparsable input
yields 0), as in script.js lines 650-652. -/
structure ItemRow where
  description : String
  quantity : Rat
  price : Rat
  total : Rat
  deriving DecidableEq, Repr

/-- A line item as pushed by getItemsFromForm (script.js lines 655-660). -/
structure SubmittedItem where
  description : String
  quantity : Rat
  price : Rat
  total : Rat
  deriving DecidableEq, Repr

/-- The inclusion test of script.js line 654:
`if (description && quantity > 0 && price >= 0)`, where `description` is the
trimmed input (truthy iff nonempty). -/
def itemRowValid (r : ItemRow) : Bool :=
  jsTrim r.description != "" && decide (r.quantity > 0) && decide (r.price ≥ 0)

/-- The item object pushed for a row that passes the test (script.js lines
655-660): the trimmed description and the parsed numeric fields. -/
def submittedOf (r : ItemRow) : SubmittedItem :=
  { description := jsTrim r.description
    quantity := r.quantity
    price := r.price
    total := r.total }

/-- InvoiceManager.getItemsFromForm (script.js lines 644-665): walks the item
rows in order and pushes each row that passes the validity test. -/
def getItemsFromForm : List ItemRow → List SubmittedItem
  | [] => []
  | r :: rest =>
      if itemRowValid r then submittedOf r :: getItemsFromForm rest
      else getItemsFromForm rest

/-- The arithmetic core of InvoiceManager.calculateItemTotal (script.js lines
559-567): `const total = quantity * price` where each operand is
`parseFloat(...) || 0` (an unparsable input, modelled as `none`, yields 0). -/
def calculateItemTotal (quantity price : Option Rat) : Rat :=
  quantity.getD 0 * price.getD 0

/-- JS `x.toFixed(2)` re-read as a number: rounding to two decimal places
(ties away from zero toward plus infinity, as toFixed specifies). -/
def toFixed2 (x : Rat) : Rat :=
  round (x * 100) / 100

/-- The values computed and displayed by InvoiceManager.calculateTotals
(script.js lines 569-590): the raw subtotal, tax amount and total, and the
two-decimal renderings written to the subtotal / taxAmount / totalAmount
elements. -/
structure TotalsResult where
  subtotal : Rat
  taxAmount : Rat
  total : Rat
  displaySubtotal : Rat
  displayTaxAmount : Rat
  displayTotal : Rat
  deriving DecidableEq, Repr

/-- InvoiceManager.calculateTotals (script.js lines 569-590): sums the
`.item-total` fields with `subtotal += total` (lines 573-576), computes
`taxAmount = (subtotal * taxRate) / 100` and `total = subtotal + taxAmount`
(lines 580-581), and displays each with `.toFixed(2)` (lines 587-589). -/
def calculateTotals (itemTotals : List Rat) (taxRate : Rat) : TotalsResult :=
  let subtotal := itemTotals.foldl (· + ·) 0
  let taxAmount := subtotal * taxRate / 100
  let total := subtotal + taxAmount
  { subtotal := subtotal
    taxAmount := taxAmount
    total := total
    displaySubtotal := toFixed2 subtotal
    displayTaxAmount := toFixed2 taxAmount
    displayTotal := toFixed2 total }

/-- The form fields read by InvoiceManager.handleFormSubmit before it decides
whether to proceed (script.js lines 592-608). -/
structure FormState where
  rows : List ItemRow
  customerName : String
  customerEmail : String
  status : String
  deriving DecidableEq, Repr

/-- The control-flow outcome of the validation prefix of handleFormSubmit:
`rejected msg` means the handler showed the error notification `msg` and
returned before building `invoiceData` and before any ApiService call;
`submit` means it fell through to addInvoice / updateInvoice. -/
inductive FormSubmitStep where
  | rejected (message : String)
  | submit (items : List SubmittedItem) (customerName customerEmail status : String)
  deriving DecidableEq, Repr

/-- InvoiceManager.handleFormSubmit, validation prefix (script.js lines
592-608): an empty valid-item list is rejected first (lines 597-600), then an
empty trimmed customer name or email (lines 602-608); only past both checks
does the handler build the payload and reach the network. -/
def handleFormSubmitValidate (form : FormState) : FormSubmitStep :=
  let items := getItemsFromForm form.rows
  if items.length = 0 then
    .rejected "Please add at least one item to the invoice."
  else
    let customerName := jsTrim form.customerName
    let customerEmail := jsTrim form.customerEmail
    if customerName = "" ∨ customerEmail = "" then
      .rejected "Customer name and email are required."
    else
      .submit items customerName customerEmail form.status

/-- A record of `GET /invoices/{userId}` as consumed by loadInvoices
(script.js lines 826-844): `customer_name`, `customer_email` and `created_at`
may be absent (defaulted with `|| ...`), `total` is `parseFloat(inv.total)`
modelled as `none` when unparsable or absent (`|| 0` defaults it). -/
structure ServerInvoice where
  id : Nat
  user_id : Nat
  customer_name : Option String
  customer_email : Option String
  total : Option Rat
  status : String
  created_at : Option String
  deriving DecidableEq, Repr

/-- The client-side invoice view model built by loadInvoices (script.js
lines 826-844). -/
structure Invoice where
  id : Nat
  userId : Nat
  invoiceNumber : String
  invoiceDate : String
  dueDate : String
  customerName : String
  customerEmail : String
  customerAddress : String
  items : List SubmittedItem
  subtotal : Rat
  taxRate : Rat
  taxAmount : Rat
  total : Rat
  status : String
  notes : String
  createdAt : Option String
  updatedAt : Option String
  deriving DecidableEq, Repr

/-- JS `str.padStart(n, c)`: left-pads with `c` up to length `n`
(no-op when the string is already at least that long). -/
def padStart (s : String) (n : Nat) (c : Char) : String :=
  String.mk (List.replicate (n - s.length) c) ++ s

/-- The per-record mapping of InvoiceManager.loadInvoices (script.js lines
819-845): synthesizes `invoiceNumber` from the id (line 829), defaults the
dates to `created_at` or the date string of today (lines 830-831), defaults
customer fields to "" (lines 832-833), zeroes the unpersisted fields, and
maps the status through the read-side status map (line 840). -/
def mapServerInvoice (todayStr : String) (inv : ServerInvoice) : Invoice :=
  { id := inv.id
    userId := inv.user_id
    invoiceNumber := "INV-" ++ padStart (Nat.repr inv.id) 4 '0'
    invoiceDate := inv.created_at.getD todayStr
    dueDate := inv.created_at.getD todayStr
    customerName := inv.customer_name.getD ""
    customerEmail := inv.customer_email.getD ""
    customerAddress := ""
    items := []
    subtotal := inv.total.getD 0
    taxRate := 0
    taxAmount := 0
    total := inv.total.getD 0
    status := statusMapRead inv.status
    notes := ""
    createdAt := inv.created_at
    updatedAt := inv.created_at }

/-- The state that InvoiceManager.loadInvoices touches: the bound user id and
the in-memory invoice collection `this.invoices`. -/
structure ManagerState where
  userId : Nat
  invoices : List Invoice
  deriving DecidableEq, Repr

/-- A notification as shown by showNotification (script.js line 1020). -/
structure NotificationMsg where
  message : String
  kind : String
  deriving DecidableEq, Repr

/-- The observable effects of one loadInvoices call: the notifications it
showed and the number of ApiService requests it issued. -/
structure LoadEffects where
  notifications : List NotificationMsg
  requestsIssued : Nat
  deriving DecidableEq, Repr

/-- InvoiceManager.loadInvoices (script.js lines 815-851): issues exactly one
`GET /invoices/{userId}` (line 817, modelled by the `fetchResult` argument);
on success replaces `this.invoices` with the remapped records (lines
819-845); on failure the catch block (lines 847-850) leaves the state
untouched and shows one error notification, with no further request. -/
def loadInvoices (st : ManagerState) (todayStr : String)
    (fetchResult : Except String (List ServerInvoice)) :
    ManagerState × LoadEffects :=
  match fetchResult with
  | .error _ =>
      (st, { notifications := [{ message := "Failed to load invoices", kind := "error" }]
             requestsIssued := 1 })
  | .ok serverInvs =>
      ({ st with invoices := serverInvs.map (mapServerInvoice todayStr) },
       { notifications := [], requestsIssued := 1 })

/-- The browser date facilities used by filterInvoices, made explicit:
`parseMs` is `new Date(s).getTime()`, `nowMs` is the current instant, and
`dayKey` identifies the local calendar day of an instant (two instants have
equal `toDateString()` exactly when their day keys agree). -/
structure DateEnv where
  parseMs : String → Int
  nowMs : Int
  dayKey : Int → Int

/-- The search predicate of filterInvoices (script.js lines 909-913):
case-insensitive substring match of the term against invoice number,
customer name and customer email. -/
def searchHit (term : String) (inv : Invoice) : Bool :=
  containsSub (jsToLower inv.invoiceNumber) term
    || containsSub (jsToLower inv.customerName) term
    || containsSub (jsToLower inv.customerEmail) term

/-- The date predicate of filterInvoices (script.js lines 921-937):
"today" compares calendar days, "week" and "month" compare against the
instant 7 resp. 30 days before now, anything else keeps the invoice. -/
def datePred (env : DateEnv) (dateFilter : String) (inv : Invoice) : Bool :=
  let d := env.parseMs inv.invoiceDate
  if dateFilter = "today" then env.dayKey d == env.dayKey env.nowMs
  else if dateFilter = "week" then decide (env.nowMs - 7 * 24 * 60 * 60 * 1000 ≤ d)
  else if dateFilter = "month" then decide (env.nowMs - 30 * 24 * 60 * 60 * 1000 ≤ d)
  else true

/-- The conditional search stage (script.js lines 908-914): applied only when
the lowercased term is nonempty (truthy). -/
def stageSearch (term : String) (l : List Invoice) : List Invoice :=
  if term ≠ "" then l.filter (searchHit term) else l

/-- The conditional status stage (script.js lines 916-918). -/
def stageStatus (statusFilter : String) (l : List Invoice) : List Invoice :=
  if statusFilter ≠ "" then l.filter (fun inv => inv.status == statusFilter) else l

/-- The conditional date stage (script.js lines 920-938). -/
def stageDate (env : DateEnv) (dateFilter : String) (l : List Invoice) : List Invoice :=
  if dateFilter ≠ "" then l.filter (datePred env dateFilter) else l

/-- InvoiceManager.filterInvoices (script.js lines 901-941): lowercases the
raw search term (line 902), scopes to the bound user (line 906), then applies
the search, status and date stages in that order.  It reads and filters only
the in-memory collection; no ApiService call appears in it. -/
def filterInvoices (env : DateEnv) (userId : Nat)
    (searchRaw statusFilter dateFilter : String)
    (invoices : List Invoice) : List Invoice :=
  let searchTerm := jsToLower searchRaw
  let userScoped := invoices.filter (fun inv => inv.userId == userId)
  stageDate env dateFilter (stageStatus statusFilter (stageSearch searchTerm userScoped))

/-- The effective per-invoice keep condition of the search stage, guard
included: a skipped stage (empty term) keeps everything. -/
def searchKeep (term : String) (inv : Invoice) : Bool :=
  term == "" || searchHit term inv

/-- The effective per-invoice keep condition of the status stage, guard
included. -/
def statusKeep (statusFilter : String) (inv : Invoice) : Bool :=
  statusFilter == "" || inv.status == statusFilter

/-- The effective per-invoice keep condition of the date stage, guard
included. -/
def dateKeep (env : DateEnv) (dateFilter : String) (inv : Invoice) : Bool :=
  dateFilter == "" || datePred env dateFilter inv

/-- The four dashboard statistics computed by updateStatistics
(script.js lines 988-1008). -/
structure Stats where
  totalInvoices : Nat
  totalAmount : Rat
  pendingInvoices : Nat
  paidInvoices : Nat
  deriving DecidableEq, Repr

/-- InvoiceManager.updateStatistics (script.js lines 988-1008): scopes to the
bound user (line 989), then counts invoices, sums totals with `reduce`
(line 991), counts status in {draft, sent, unpaid} as pending (lines
992-994) and status paid as paid (lines 995-997). -/
def updateStatistics (userId : Nat) (invoices : List Invoice) : Stats :=
  let userInvoices := invoices.filter (fun inv => inv.userId == userId)
  { totalInvoices := userInvoices.length
    totalAmount := userInvoices.foldl (fun sum inv => sum + inv.total) 0
    pendingInvoices := (userInvoices.filter (fun inv =>
      inv.status == "draft" || inv.status == "sent" || inv.status == "unpaid")).length
    paidInvoices := (userInvoices.filter (fun inv => inv.status == "paid")).length }

/-- A concrete invoice with total 100.00 and status "unpaid" for user 1,
as produced by loadInvoices for such a record. -/
def sampleInvoiceHundred : Invoice :=
  { id := 1, userId := 1, invoiceNumber := "INV-0001", invoiceDate := "2026-01-01"
    dueDate := "2026-01-01", customerName := "Ann", customerEmail := "ann@example.com"
    customerAddress := "", items := [], subtotal := 100, taxRate := 0, taxAmount := 0
    total := 100, status := "unpaid", notes := "", createdAt := none, updatedAt := none }

/-- A concrete invoice with total 250.50 and status "unpaid" for user 1. -/
def sampleInvoiceTwoFifty : Invoice :=
  { id := 2, userId := 1, invoiceNumber := "INV-0002", invoiceDate := "2026-01-02"
    dueDate := "2026-01-02", customerName := "Bob", customerEmail := "bob@example.com"
    customerAddress := "", items := [], subtotal := 250.5, taxRate := 0, taxAmount := 0
    total := 250.5, status := "unpaid", notes := "", createdAt := none, updatedAt := none }

/-! Helper lemmas shared by the claim theorems. -/

/-- Every output of the write-side status map lies in the persisted
vocabulary. -/
theorem statusMapWrite_cases (s : String) :
    statusMapWrite s = "paid" ∨ statusMapWrite s = "unpaid" ∨ statusMapWrite s = "overdue" := by
  unfold statusMapWrite
  split_ifs <;> simp

/-- Two list filters commute. -/
theorem filter_swap {α : Type} (p q : α → Bool) (l : List α) :
    (l.filter p).filter q = (l.filter q).filter p := by
  induction l with
  | nil => rfl
  | cons a t ih =>
      by_cases hp : p a <;> by_cases hq : q a <;>
        simp [List.filter_cons, hp, hq, ih]

/-- Folding addition from an accumulator sums the list. -/
theorem foldl_add_eq (l : List Rat) (a : Rat) : l.foldl (· + ·) a = a + l.sum := by
  induction l generalizing a with
  | nil => simp
  | cons x t ih => simp [ih]; ring

/-- Folding invoice totals from an accumulator sums the mapped totals. -/
theorem foldl_total_eq (l : List Invoice) (a : Rat) :
    l.foldl (fun sum inv => sum + inv.total) a = a + (l.map (fun inv => inv.total)).sum := by
  induction l generalizing a with
  | nil => simp
  | cons x t ih => simp [ih]; ring

/-- getItemsFromForm keeps exactly the valid rows, in order, each turned into
its submitted item. -/
theorem getItemsFromForm_eq (rows : List ItemRow) :
    getItemsFromForm rows = (rows.filter itemRowValid).map submittedOf := by
  induction rows with
  | nil => rfl
  | cons r rest ih =>
      by_cases h : itemRowValid r <;>
        simp [getItemsFromForm, List.filter_cons, h, ih]

/-- The search stage is the filter by its guarded keep condition. -/
theorem stageSearch_eq (term : String) (l : List Invoice) :
    stageSearch term l = l.filter (searchKeep term) := by
  unfold stageSearch searchKeep
  by_cases h : term = ""
  · simp [h]
  · simp only [h, if_pos, ne_eq, not_false_iff]
    refine (List.filter_congr ?_).symm
    intro a _
    simp [h]

/-- The status stage is the filter by its guarded keep condition. -/
theorem stageStatus_eq (statusFilter : String) (l : List Invoice) :
    stageStatus statusFilter l = l.filter (statusKeep statusFilter) := by
  unfold stageStatus statusKeep
  by_cases h : statusFilter = ""
  · simp [h]
  · simp only [h, if_pos, ne_eq, not_false_iff]
    refine (List.filter_congr ?_).symm
    intro a _
    simp [h]

/-- The date stage is the filter by its guarded keep condition. -/
theorem stageDate_eq (env : DateEnv) (dateFilter : String) (l : List Invoice) :
    stageDate env dateFilter l = l.filter (dateKeep env dateFilter) := by
  unfold stageDate dateKeep
  by_cases h : dateFilter = ""
  · simp [h]
  · simp only [h, if_pos, ne_eq, not_false_iff]
    refine (List.filter_congr ?_).symm
    intro a _
    simp [h]

/-- Rearrangement of a four-fold Bool conjunction. -/
theorem bool_and_rot_a (w x y z : Bool) :
    (x && (y && (z && w))) = (x && (z && (y && w))) := by
  cases w <;> cases x <;> cases y <;> cases z <;> rfl

/-- Rearrangement of a four-fold Bool conjunction. -/
theorem bool_and_rot_b (w x y z : Bool) :
    (x && (y && (z && w))) = (y && (x && (z && w))) := by
  cases w <;> cases x <;> cases y <;> cases z <;> rfl

/-- Rearrangement of a four-fold Bool conjunction. -/
theorem bool_and_rot_c (w x y z : Bool) :
    (x && (y && (z && w))) = (z && (x && (y && w))) := by
  cases w <;> cases x <;> cases y <;> cases z <;> rfl

/-- Rearrangement of a four-fold Bool conjunction. -/
theorem bool_and_rot_d (w x y z : Bool) :
    (x && (y && (z && w))) = (y && (z && (x && w))) := by
  cases w <;> cases x <;> cases y <;> cases z <;> rfl

/-- Rearrangement of a four-fold Bool conjunction. -/
theorem bool_and_rot_e (w x y z : Bool) :
    (x && (y && (z && w))) = (z && (y && (x && w))) := by
  cases w <;> cases x <;> cases y <;> cases z <;> rfl

/-- Rearrangement of a four-fold Bool conjunction. -/
theorem bool_and_rot_f (w x y z : Bool) :
    (z && (y && (x && w))) = (((w && x) && y) && z) := by
  cases w <;> cases x <;> cases y <;> cases z <;> rfl

/-! Claim theorems. -/

/-- C1 (code bug evidence): a non-success JSON response whose body has no
message and no error field makes ApiService.request fail with the
"Cannot connect to server..." message — not with the generic status-coded
message the code builds at line 36 — because the catch-all at line 45
matches the substring "failed" inside that generic message. -/
theorem request_http_error_masked_as_cannot_connect :
    request (.jsonResponse false 500 { message := none, error := none })
      = .error "Cannot connect to server. Make sure the backend is running on http://localhost:5500"
    ∧ "Cannot connect to server. Make sure the backend is running on http://localhost:5500"
      ≠ "Request failed with status 500" := by
  exact ⟨by decide, by decide⟩

/-- C2: the write-side status map sends draft and sent to unpaid and passes
unpaid, paid and overdue through; the read-side map sends Paid, Unpaid and
Overdue to their lowercase forms; and the write-side map is idempotent on
every string. -/
theorem statusMapping_total_idempotent :
    (statusMapWrite "draft" = "unpaid" ∧ statusMapWrite "sent" = "unpaid"
      ∧ statusMapWrite "unpaid" = "unpaid" ∧ statusMapWrite "paid" = "paid"
      ∧ statusMapWrite "overdue" = "overdue")
    ∧ (statusMapRead "Paid" = "paid" ∧ statusMapRead "Unpaid" = "unpaid"
      ∧ statusMapRead "Overdue" = "overdue")
    ∧ (∀ s : String, statusMapWrite (statusMapWrite s) = statusMapWrite s) := by
  refine ⟨by decide, by decide, ?_⟩
  intro s
  rcases statusMapWrite_cases s with h | h | h <;> rw [h] <;> decide

/-- C5: when the fetch fails, loadInvoices leaves the whole manager state
(in particular the in-memory invoice collection) unchanged, shows exactly
one error notification, and issues no further request beyond the single
attempt. -/
theorem loadInvoices_failure_preserves_state :
    ∀ (st : ManagerState) (todayStr errMsg : String),
      (loadInvoices st todayStr (.error errMsg)).1 = st
      ∧ (loadInvoices st todayStr (.error errMsg)).1.invoices = st.invoices
      ∧ (loadInvoices st todayStr (.error errMsg)).2.notifications
          = [{ message := "Failed to load invoices", kind := "error" }]
      ∧ (loadInvoices st todayStr (.error errMsg)).2.requestsIssued = 1 := by
  intro st todayStr errMsg
  exact ⟨rfl, rfl, rfl, rfl⟩

/-- C8: the invoice number synthesized by loadInvoices is a pure function of
the record id, namely "INV-" followed by the decimal id left-padded with
zeros to four digits; in particular id 7 yields "INV-0007". -/
theorem invoiceNumber_from_id :
    ∀ (todayStr : String) (rec : ServerInvoice),
      (mapServerInvoice todayStr rec).invoiceNumber
          = "INV-" ++ padStart (Nat.repr rec.id) 4 '0'
      ∧ (mapServerInvoice todayStr
            { id := 7, user_id := 1, customer_name := none, customer_email := none,
              total := none, status := "Unpaid", created_at := none }).invoiceNumber
          = "INV-0007" := by
  intro todayStr rec
  exact ⟨rfl, rfl⟩

/-- C10 counterexample: the server status "constructor" is outside
{Paid, Unpaid, Overdue}, yet the read lookup yields the inherited truthy
Object.prototype member rather than "unpaid", and likewise the client status
"toString" on the write lookup — refuting the claim that every
out-of-vocabulary status maps to "unpaid". -/
theorem statusMapping_inherited_member_not_unpaid :
    ("constructor" ∉ (["Paid", "Unpaid", "Overdue"] : List String))
    ∧ statusMapReadJs "constructor" = .obj "constructor"
    ∧ statusMapReadJs "constructor" ≠ .str "unpaid"
    ∧ ("toString" ∉ (["draft", "sent", "unpaid", "paid", "overdue"] : List String))
    ∧ statusMapWriteJs "toString" = .obj "toString"
    ∧ statusMapWriteJs "toString" ≠ .str "unpaid" := by
  refine ⟨by decide, by decide, by decide, by decide, by decide, by decide⟩

/-- C10 (amended): any status outside the vocabulary AND outside the twelve
inherited Object.prototype member names defaults silently to "unpaid" on both
the read and the write lookup — in particular the already-lowercase "paid"
reads as "unpaid" — while an inherited member name yields the truthy
inherited member itself, never a failure; both lookups are total. -/
theorem statusMapping_silent_default_amended :
    ∀ s : String,
      (s ∉ (["Paid", "Unpaid", "Overdue"] : List String) →
        s ∉ objectProtoMembers → statusMapReadJs s = .str "unpaid")
      ∧ (s ∉ (["draft", "sent", "unpaid", "paid", "overdue"] : List String) →
          s ∉ objectProtoMembers → statusMapWriteJs s = .str "unpaid")
      ∧ (s ∈ objectProtoMembers →
          statusMapReadJs s = .obj s ∧ statusMapWriteJs s = .obj s)
      ∧ statusMapReadJs "paid" = .str "unpaid" := by
  intro s
  refine ⟨?_, ?_, ?_, by decide⟩
  · intro h hp
    simp only [List.mem_cons, List.not_mem_nil, or_false, not_or] at h
    obtain ⟨h1, h2, h3⟩ := h
    unfold statusMapReadJs
    rw [if_neg h1, if_neg h2, if_neg h3, if_neg hp]
  · intro h hp
    simp only [List.mem_cons, List.not_mem_nil, or_false, not_or] at h
    obtain ⟨h1, h2, h3, h4, h5⟩ := h
    unfold statusMapWriteJs
    rw [if_neg h4, if_neg h3, if_neg h5, if_neg h1, if_neg h2, if_neg hp]
  · intro hp
    fin_cases hp <;> exact ⟨by decide, by decide⟩

/-- Witness for the amended C10 at the concrete status "pending", which is in
neither vocabulary and is not an inherited Object.prototype member name. -/
theorem statusMapping_silent_default_amended_witness :
    ("pending" ∉ (["Paid", "Unpaid", "Overdue"] : List String))
    ∧ ("pending" ∉ (["draft", "sent", "unpaid", "paid", "overdue"] : List String))
    ∧ ("pending" ∉ objectProtoMembers)
    ∧ ("constructor" ∈ objectProtoMembers)
    ∧ statusMapReadJs "pending" = .str "unpaid"
    ∧ statusMapWriteJs "pending" = .str "unpaid"
    ∧ (statusMapReadJs "constructor" = .obj "constructor"
        ∧ statusMapWriteJs "constructor" = .obj "constructor") :=
  ⟨by decide, by decide, by decide, by decide,
   (statusMapping_silent_default_amended "pending").1 (by decide) (by decide),
   (statusMapping_silent_default_amended "pending").2.1 (by decide) (by decide),
   (statusMapping_silent_default_amended "constructor").2.2.1 (by decide)⟩

/-- C3: the line total computed by calculateItemTotal is quantity * price
(parsed operands, unparsable inputs defaulting to 0); getItemsFromForm keeps
exactly the rows whose trimmed description is nonempty, quantity is positive
and price is nonnegative, so every item failing one of the three conditions
is excluded from the submitted list. -/
theorem lineItems_total_and_exclusion :
    ∀ (quantity price : Option Rat) (rows : List ItemRow) (r : ItemRow),
      calculateItemTotal quantity price = quantity.getD 0 * price.getD 0
      ∧ getItemsFromForm rows = (rows.filter itemRowValid).map submittedOf
      ∧ (itemRowValid r = true ↔
          (jsTrim r.description ≠ "" ∧ 0 < r.quantity ∧ 0 ≤ r.price)) := by
  intro quantity price rows r
  refine ⟨rfl, getItemsFromForm_eq rows, ?_⟩
  simp [itemRowValid, and_assoc]

/-- C4: calculateTotals returns subtotal = the sum of the line totals,
taxAmount = subtotal * taxRate / 100 and total = subtotal + taxAmount, and
displays each rounded to two decimal places. -/
theorem calculateTotals_correct :
    ∀ (itemTotals : List Rat) (taxRate : Rat),
      (calculateTotals itemTotals taxRate).subtotal = itemTotals.sum
      ∧ (calculateTotals itemTotals taxRate).taxAmount = itemTotals.sum * taxRate / 100
      ∧ (calculateTotals itemTotals taxRate).total
          = itemTotals.sum + itemTotals.sum * taxRate / 100
      ∧ (calculateTotals itemTotals taxRate).displaySubtotal = toFixed2 itemTotals.sum
      ∧ (calculateTotals itemTotals taxRate).displayTaxAmount
          = toFixed2 (itemTotals.sum * taxRate / 100)
      ∧ (calculateTotals itemTotals taxRate).displayTotal
          = toFixed2 (itemTotals.sum + itemTotals.sum * taxRate / 100) := by
  intro itemTotals taxRate
  have h : itemTotals.foldl (· + ·) 0 = itemTotals.sum := by
    simpa using foldl_add_eq itemTotals 0
  simp [calculateTotals, h]

/-- C6: a submission whose rows yield zero valid items is rejected with
exactly the message "Please add at least one item to the invoice." before the
handler reaches any network step, and a submission with valid items but an
empty trimmed customer name or email is likewise rejected locally with
"Customer name and email are required.". -/
theorem handleFormSubmit_local_rejection :
    ∀ (form : FormState),
      (getItemsFromForm form.rows = [] →
        handleFormSubmitValidate form
          = .rejected "Please add at least one item to the invoice.")
      ∧ (getItemsFromForm form.rows ≠ [] →
          (jsTrim form.customerName = "" ∨ jsTrim form.customerEmail = "") →
          handleFormSubmitValidate form
            = .rejected "Customer name and email are required.") := by
  intro form
  constructor
  · intro h
    simp [handleFormSubmitValidate, h]
  · intro h hc
    have hlen : ¬ (getItemsFromForm form.rows).length = 0 := by
      simpa [List.length_eq_zero] using h
    simp only [handleFormSubmitValidate]
    rw [if_neg hlen, if_pos hc]

/-- Witness for C6: an empty row list is rejected for lack of items, and a
valid row with a whitespace-only customer name is rejected for the missing
customer field. -/
theorem handleFormSubmit_local_rejection_witness :
    handleFormSubmitValidate
        { rows := [], customerName := "Ann", customerEmail := "ann@example.com",
          status := "draft" }
      = .rejected "Please add at least one item to the invoice."
    ∧ handleFormSubmitValidate
        { rows := [{ description := "Widget", quantity := 1, price := 2, total := 2 }],
          customerName := "  ", customerEmail := "ann@example.com", status := "draft" }
      = .rejected "Customer name and email are required." :=
  ⟨(handleFormSubmit_local_rejection _).1 rfl,
   (handleFormSubmit_local_rejection _).2 (by decide) (Or.inl (by decide))⟩

/-- C9: updateStatistics, scoped to the active user, returns the count of
invoices, the sum of their totals, the count with status in
{draft, sent, unpaid} and the count with status paid; on two invoices with
totals 100.00 and 250.50, both unpaid, it yields count 2, total 350.50,
pending 2, paid 0. -/
theorem updateStatistics_correct :
    ∀ (userId : Nat) (invoices : List Invoice),
      (updateStatistics userId invoices).totalInvoices
          = (invoices.filter (fun inv => inv.userId == userId)).length
      ∧ (updateStatistics userId invoices).totalAmount
          = ((invoices.filter (fun inv => inv.userId == userId)).map
              (fun inv => inv.total)).sum
      ∧ (updateStatistics userId invoices).pendingInvoices
          = ((invoices.filter (fun inv => inv.userId == userId)).filter (fun inv =>
              inv.status == "draft" || inv.status == "sent"
                || inv.status == "unpaid")).length
      ∧ (updateStatistics userId invoices).paidInvoices
          = ((invoices.filter (fun inv => inv.userId == userId)).filter
              (fun inv => inv.status == "paid")).length
      ∧ updateStatistics 1 [sampleInvoiceHundred, sampleInvoiceTwoFifty]
          = { totalInvoices := 2, totalAmount := 350.5, pendingInvoices := 2,
              paidInvoices := 0 } := by
  intro userId invoices
  refine ⟨rfl, ?_,  rfl, rfl, ?_⟩
  · simpa using foldl_total_eq (invoices.filter (fun inv => inv.userId == userId)) 0
  · simp [updateStatistics, sampleInvoiceHundred, sampleInvoiceTwoFifty,
      List.filter_cons, Stats.mk.injEq]
    norm_num

/-- C7: filterInvoices is a pure function of the in-memory collection (its
definition issues no request); it equals a single filter by the logical AND
of the user-scope, search, status and date keep conditions; and the three
conditional filter stages can be applied in any of the six orders with the
same result. -/
theorem filterInvoices_and_order_independent :
    ∀ (env : DateEnv) (userId : Nat) (searchRaw statusFilter dateFilter : String)
      (invoices : List Invoice),
      filterInvoices env userId searchRaw statusFilter dateFilter invoices
          = invoices.filter (fun inv =>
              ((inv.userId == userId) && searchKeep (jsToLower searchRaw) inv
                && statusKeep statusFilter inv) && dateKeep env dateFilter inv)
      ∧ stageDate env dateFilter (stageSearch (jsToLower searchRaw)
            (stageStatus statusFilter
              (invoices.filter (fun inv => inv.userId == userId))))
          = filterInvoices env userId searchRaw statusFilter dateFilter invoices
      ∧ stageStatus statusFilter (stageDate env dateFilter
            (stageSearch (jsToLower searchRaw)
              (invoices.filter (fun inv => inv.userId == userId))))
          = filterInvoices env userId searchRaw statusFilter dateFilter invoices
      ∧ stageStatus statusFilter (stageSearch (jsToLower searchRaw)
            (stageDate env dateFilter
              (invoices.filter (fun inv => inv.userId == userId))))
          = filterInvoices env userId searchRaw statusFilter dateFilter invoices
      ∧ stageSearch (jsToLower searchRaw) (stageDate env dateFilter
            (stageStatus statusFilter
              (invoices.filter (fun inv => inv.userId == userId))))
          = filterInvoices env userId searchRaw statusFilter dateFilter invoices
      ∧ stageSearch (jsToLower searchRaw) (stageStatus statusFilter
            (stageDate env dateFilter
              (invoices.filter (fun inv => inv.userId == userId))))
          = filterInvoices env userId searchRaw statusFilter dateFilter invoices := by
  intro env userId searchRaw statusFilter dateFilter invoices
  simp only [filterInvoices, stageSearch_eq, stageStatus_eq, stageDate_eq,
    List.filter_filter]
  refine ⟨?_, ?_, ?_, ?_, ?_, ?_⟩
  · exact List.filter_congr (fun a _ => bool_and_rot_f _ _ _ _)
  · exact List.filter_congr (fun a _ => bool_and_rot_a _ _ _ _)
  · exact List.filter_congr (fun a _ => bool_and_rot_b _ _ _ _)
  · exact List.filter_congr (fun a _ => bool_and_rot_c _ _ _ _)
  · exact List.filter_congr (fun a _ => bool_and_rot_d _ _ _ _)
  · exact List.filter_congr (fun a _ => bool_and_rot_e _ _ _ _)

end InvoiceApp
